import Mathlib

/-!
# Shallow embedding of `@kreds/strategy-oidc` (src/index.ts)

The single source file defines `OIDCAuthenticationStrategy`, an OIDC client
strategy for the kreds authentication framework.  This development embeds its
data model and operations in Lean:

* pure getters (`redirectUrl`, `scope`, `action`) become pure functions;
* the async methods (`init`, `token`, `userinfo`, `authenticate`) become
  functions taking a `World` oracle that supplies each remote endpoint's
  response, and returning an `Except` result paired with the ordered trace of
  observable effects (`Event`): network calls and the invocation of the
  host-supplied `verify` callback;
* JavaScript truthiness on the inbound `context.payload` is modeled by a small
  `JsValue` type (`!x` checks) and key membership (`'code' in payload`);
* errors are the exact message strings thrown by the source.

URL handling: the source uses the WHATWG `URL` / `URLSearchParams` classes.
We embed their observable output for well-formed endpoint URLs: query
parameters are appended in insertion order, serialized with
`application/x-www-form-urlencoded` percent-encoding (space becomes `+`,
bytes outside `[A-Za-z0-9*-._]` become uppercase `%XX` over UTF-8).
-/

namespace KredsOIDC

/-- JavaScript truthiness-relevant values for the inbound payload.  `undef`
stands for an absent `context.payload`; `obj` is an object whose own fields
are the string-valued query parameters the host extracted. -/
inductive JsValue where
  | undef
  | nullv
  | boolean (b : Bool)
  | number (n : Int)
  | string (s : String)
  | obj (fields : List (String × String))
deriving DecidableEq, Repr

/-- JavaScript truthiness: `!v` is `true` exactly when `truthy v = false`. -/
def truthy : JsValue → Bool
  | .undef => false
  | .nullv => false
  | .boolean b => b
  | .number n => n != 0
  | .string s => s != ""
  | .obj _ => true

/-- The `'k' in payload` check of the source, for object payloads. -/
def hasKey : JsValue → String → Bool
  | .obj fields, k => (fields.lookup k).isSome
  | _, _ => false

/-- Property read `(payload as any).k` for object payloads. -/
def getKey : JsValue → String → String
  | .obj fields, k => (fields.lookup k).getD ""
  | _, _ => ""

/-- Truthiness of an optional string field (`!url` where
`url : string | undefined`): falsy when absent or the empty string. -/
def optTruthy : Option String → Bool
  | none => false
  | some s => s != ""

/-- `interface OpenIDConfiguration` — each endpoint optional. -/
structure OpenIDConfiguration where
  authorization_endpoint : Option String := none
  token_endpoint : Option String := none
  userinfo_endpoint : Option String := none
deriving DecidableEq, Repr

/-- The field initializer `configuration: OpenIDConfiguration = {}`. -/
def emptyConfiguration : OpenIDConfiguration := {}

/-- `interface Token` — the token-endpoint response record. -/
structure Token where
  access_token : String
  refresh_token : Option String := none
  token_type : String
  expires_in : Int
  scope : String
deriving DecidableEq, Repr

/-- `interface OIDCUserAddress`. -/
structure OIDCUserAddress where
  formatted : Option String := none
  street_address : Option String := none
  locality : Option String := none
  region : Option String := none
  postal_code : Option String := none
  country : Option String := none
deriving DecidableEq, Repr

/-- `interface OIDCUserInfo` — OIDC standard claims, all but `sub` optional. -/
structure OIDCUserInfo where
  sub : String
  name : Option String := none
  given_name : Option String := none
  family_name : Option String := none
  middle_name : Option String := none
  nickname : Option String := none
  preferred_username : Option String := none
  profile : Option String := none
  picture : Option String := none
  website : Option String := none
  email : Option String := none
  email_verified : Option Bool := none
  gender : Option String := none
  birthdate : Option String := none
  zoneinfo : Option String := none
  locale : Option String := none
  phone_number : Option String := none
  phone_number_verified : Option Bool := none
  address : Option OIDCUserAddress := none
  updated_at : Option Int := none
deriving DecidableEq, Repr

/-- `interface Data` — the record handed to the host verify callback.
`expiresAt` is a point in time, modeled in seconds. -/
structure Data where
  token : Token
  userInfo : OIDCUserInfo
  expiresAt : Int
deriving DecidableEq, Repr

/-- `KredsClientAction` — the redirect action object. -/
structure KredsClientAction where
  type : String
  url : String
deriving DecidableEq, Repr

/-- The host outcome type: either the `done: false` redirect outcome built by
the strategy, or an opaque host-defined outcome value of type `V` returned
from `verify`. -/
inductive KredsOutcome (V : Type) where
  | notDone (action : KredsClientAction)
  | other (value : V)
deriving DecidableEq, Repr

/-- `config.client` — immutable client configuration. -/
structure ClientConfig where
  id : String
  secret : String
  redirectUrl : String
  scopes : List String
deriving DecidableEq, Repr

/-- `KredsContext` — we model exactly the part the strategy reads:
the optional `payload` (`JsValue.undef` when absent). -/
structure KredsContext where
  payload : JsValue
deriving DecidableEq, Repr

/-- `OIDCAuthenticationStrategyConfig` — construction-time configuration:
client credentials, the provider base URL, and the host verify callback
(which may itself return `undefined`, hence `Option`). -/
structure OIDCAuthenticationStrategyConfig (V : Type) where
  client : ClientConfig
  serverUrl : String
  verify : KredsContext → Data → Option (KredsOutcome V)

/-- The strategy instance: the construction-time `config` plus the mutable
`configuration` cache of discovered provider metadata. -/
structure OIDCAuthenticationStrategy (V : Type) where
  config : OIDCAuthenticationStrategyConfig V
  configuration : OpenIDConfiguration

/-- `readonly name = '-oidc'`. -/
def strategyName : String := "-oidc"

/-- The constructor: stores `config`; the field initializer sets
`configuration` to the empty object. -/
def OIDCAuthenticationStrategy.mk' {V : Type}
    (config : OIDCAuthenticationStrategyConfig V) : OIDCAuthenticationStrategy V :=
  { config := config, configuration := emptyConfiguration }

/-- Message of every `No OpenID configuration for strategy ...` error. -/
def configMissingMsg : String :=
  "No OpenID configuration for strategy " ++ strategyName ++ "."

/-- Message thrown when the token-endpoint fetch or body decode fails. -/
def tokenFailedMsg : String := "Token endpoint responded with a non-OK status code."

/-- Message thrown when the userinfo fetch or body decode fails. -/
def userinfoFailedMsg : String := "UserInfo endpoint responded with a non-OK status code."

/-- Message of the unsupported-payload error. -/
def unsupportedMsg : String := "Not supported yet."

/-- Outcome of a remote fetch-and-decode: a decoded body, or a failure (any
transport error or non-decodable body) carrying its underlying cause. -/
inductive FetchResult (α : Type) where
  | ok (value : α)
  | fail (cause : String)
deriving DecidableEq, Repr

/-- Oracle for the three remote endpoints a single `authenticate` attempt can
touch.  Each field is what the corresponding endpoint would respond. -/
structure World where
  discoveryResp : FetchResult OpenIDConfiguration
  tokenResp : FetchResult Token
  userinfoResp : FetchResult OIDCUserInfo

/-- Observable effects, in order: the three kinds of network call the source
can issue, and the invocation of the host `verify` callback. -/
inductive Event where
  | discoveryCall (url : String)
  | tokenCall (url : String) (body : List (String × String))
  | userinfoCall (url : String) (authHeader : String)
  | verifyCall (data : Data)
deriving DecidableEq, Repr

/-- Is this event a discovery-document fetch? -/
def Event.isDiscovery : Event → Bool
  | .discoveryCall _ => true
  | _ => false

/-- Is this event an invocation of the host verify callback? -/
def Event.isVerify : Event → Bool
  | .verifyCall _ => true
  | _ => false

/-- UTF-8 bytes of a character, as `Nat` code units. -/
def utf8Bytes (c : Char) : List Nat :=
  let n := c.toNat
  if n < 0x80 then [n]
  else if n < 0x800 then [0xC0 + n / 64, 0x80 + n % 64]
  else if n < 0x10000 then [0xE0 + n / 4096, 0x80 + (n / 64) % 64, 0x80 + n % 64]
  else [0xF0 + n / 262144, 0x80 + (n / 4096) % 64, 0x80 + (n / 64) % 64, 0x80 + n % 64]

/-- UTF-8 bytes of a string. -/
def strBytes (s : String) : List Nat := s.data.flatMap utf8Bytes

/-- Uppercase hexadecimal digit. -/
def hexDigitChar (n : Nat) : Char :=
  if n < 10 then Char.ofNat (48 + n) else Char.ofNat (55 + n)

/-- Bytes `URLSearchParams` leaves unescaped: `[A-Za-z0-9*-._]`. -/
def urlSafeByte (n : Nat) : Bool :=
  (0x30 ≤ n && n ≤ 0x39) || (0x41 ≤ n && n ≤ 0x5A) || (0x61 ≤ n && n ≤ 0x7A)
    || n == 0x2A || n == 0x2D || n == 0x2E || n == 0x5F

/-- `application/x-www-form-urlencoded` encoding of one byte. -/
def encodeByte (n : Nat) : String :=
  if n == 0x20 then "+"
  else if urlSafeByte n then String.singleton (Char.ofNat n)
  else "%" ++ String.singleton (hexDigitChar (n / 16)) ++ String.singleton (hexDigitChar (n % 16))

/-- `application/x-www-form-urlencoded` encoding of a string. -/
def urlencode (s : String) : String := String.join ((strBytes s).map encodeByte)

/-- Serialization of an ordered query-parameter list, as `URLSearchParams`
renders it. -/
def encodeQuery (ps : List (String × String)) : String :=
  String.intercalate "&" (ps.map fun p => urlencode p.1 ++ "=" ++ urlencode p.2)

/-- `private get scope()`: the scopes list joined with single spaces. -/
def scopeOf (client : ClientConfig) : String := String.intercalate " " client.scopes

/-- The four query parameters `redirectUrl` appends, in insertion order. -/
def redirectParams (client : ClientConfig) : List (String × String) :=
  [("response_type", "code"),
   ("client_id", client.id),
   ("scope", scopeOf client),
   ("redirect_uri", client.redirectUrl)]

/-- Does the string contain the character?  (Structural recursion over the
character list, so the kernel can evaluate it.) -/
def containsChar (s : String) (c : Char) : Bool := s.data.contains c

/-- `private get redirectUrl()`: `undefined` when `authorization_endpoint` is
falsy; otherwise the endpoint with the four parameters appended to its query
string. -/
def redirectUrlOf (configuration : OpenIDConfiguration) (client : ClientConfig) :
    Option String :=
  if optTruthy configuration.authorization_endpoint = false then none
  else
    let a := configuration.authorization_endpoint.getD ""
    some (a ++ (if containsChar a '?' then "&" else "?") ++ encodeQuery (redirectParams client))

/-- `get action()`: throws the configuration-missing error when `redirectUrl`
is falsy, otherwise returns the redirect action (recomputing `redirectUrl`,
as the source does).  The getter makes no network call, hence the empty
event trace. -/
def OIDCAuthenticationStrategy.action {V : Type} (strat : OIDCAuthenticationStrategy V) :
    Except String KredsClientAction × List Event :=
  let url := redirectUrlOf strat.configuration strat.config.client
  if optTruthy url = false then
    (.error configMissingMsg, [])
  else
    (.ok { type := "redirect",
           url := (redirectUrlOf strat.configuration strat.config.client).getD "" }, [])

/-- The literal union type of `token`'s first parameter. -/
inductive GrantType where
  | authorization_code
  | refresh_token
deriving DecidableEq, Repr

/-- The wire string of a grant type. -/
def GrantType.str : GrantType → String
  | .authorization_code => "authorization_code"
  | .refresh_token => "refresh_token"

/-- `grantType === 'authorization_code' ? 'code' : 'refresh_token'`. -/
def GrantType.codeKey : GrantType → String
  | .authorization_code => "code"
  | .refresh_token => "refresh_token"

/-- The form fields of the token POST, in the insertion order of the source's
object literal. -/
def tokenBody (client : ClientConfig) (grantType : GrantType) (code : String) :
    List (String × String) :=
  [("client_id", client.id),
   ("client_secret", client.secret),
   ("grant_type", grantType.str),
   (grantType.codeKey, code),
   ("redirect_uri", client.redirectUrl),
   ("scope", scopeOf client)]

/-- `private async token(grantType, code)`: throws configuration-missing when
`token_endpoint` is falsy (no network call); otherwise issues the form POST
and decodes the body, collapsing any failure to the single opaque
token-endpoint error (the cause is only traced, never rethrown). -/
def OIDCAuthenticationStrategy.token {V : Type} (strat : OIDCAuthenticationStrategy V)
    (w : World) (grantType : GrantType) (code : String) :
    Except String Token × List Event :=
  if optTruthy strat.configuration.token_endpoint = false then
    (.error configMissingMsg, [])
  else
    let url := strat.configuration.token_endpoint.getD ""
    let body := tokenBody strat.config.client grantType code
    match w.tokenResp with
    | .ok t => (.ok t, [.tokenCall url body])
    | .fail _ => (.error tokenFailedMsg, [.tokenCall url body])

/-- `private async userinfo(token)`: throws configuration-missing when
`userinfo_endpoint` is falsy; otherwise issues the GET with the
`authorization: <token_type> <access_token>` header, collapsing any failure
to the single opaque userinfo error. -/
def OIDCAuthenticationStrategy.userinfo {V : Type} (strat : OIDCAuthenticationStrategy V)
    (w : World) (token : Token) : Except String OIDCUserInfo × List Event :=
  if optTruthy strat.configuration.userinfo_endpoint = false then
    (.error configMissingMsg, [])
  else
    let url := strat.configuration.userinfo_endpoint.getD ""
    let header := token.token_type ++ " " ++ token.access_token
    match w.userinfoResp with
    | .ok u => (.ok u, [.userinfoCall url header])
    | .fail _ => (.error userinfoFailedMsg, [.userinfoCall url header])

/-- `new URL('.well-known/openid-configuration', serverUrl).toString()` for a
base URL (with or without trailing slash). -/
def discoveryUrl (serverUrl : String) : String :=
  serverUrl ++ (if serverUrl.endsWith "/" then "" else "/")
    ++ ".well-known/openid-configuration"

/-- `private async init()`: fetches the discovery document and stores the
parsed body in `configuration`.  A fetch/parse failure propagates raw
(unwrapped).  Defined by the source but invoked from nowhere. -/
def OIDCAuthenticationStrategy.init {V : Type} (strat : OIDCAuthenticationStrategy V)
    (w : World) : Except String (OIDCAuthenticationStrategy V) × List Event :=
  let url := discoveryUrl strat.config.serverUrl
  match w.discoveryResp with
  | .ok c => (.ok { strat with configuration := c }, [.discoveryCall url])
  | .fail cause => (.error cause, [.discoveryCall url])

/-- `async authenticate(context)`: the flow controller.  Returns
`.ok none` for `undefined`, `.ok (some outcome)` for a returned outcome,
`.error msg` for a thrown error, paired with the ordered trace of network
calls and verify invocations.  `now` is the current time in seconds
(`new Date()`); `expiresAt` is `now + token.expires_in`. -/
def OIDCAuthenticationStrategy.authenticate {V : Type}
    (strat : OIDCAuthenticationStrategy V) (w : World) (context : KredsContext)
    (now : Int) : Except String (Option (KredsOutcome V)) × List Event :=
  if truthy context.payload = false then
    (.ok none, [])
  else
    let payload := context.payload
    if truthy payload = false then
      match strat.action with
      | (.error e, ev) => (.error e, ev)
      | (.ok a, ev) => (.ok (some (.notDone a)), ev)
    else if !hasKey payload "code" && !hasKey payload "refresh_token" then
      (.error unsupportedMsg, [])
    else
      let grantType := if hasKey payload "code" then GrantType.authorization_code
                       else GrantType.refresh_token
      let code := if hasKey payload "code" then getKey payload "code"
                  else getKey payload "refresh_token"
      match strat.token w grantType code with
      | (.error e, ev) => (.error e, ev)
      | (.ok tok, ev1) =>
        match strat.userinfo w tok with
        | (.error e, ev2) => (.error e, ev1 ++ ev2)
        | (.ok ui, ev2) =>
          let expiresAt := now + tok.expires_in
          let data : Data := { token := tok, userInfo := ui, expiresAt := expiresAt }
          (.ok (strat.config.verify context data), ev1 ++ ev2 ++ [.verifyCall data])

/-! ## Concrete fixtures

Used by the witness and counterexample theorems below; values follow the
end-to-end scenario of the specification. -/

/-- A concrete client configuration. -/
def sampleClient : ClientConfig :=
  { id := "client-1", secret := "secret-1", redirectUrl := "https://app.example/cb",
    scopes := ["openid", "email"] }

/-- A concrete construction-time configuration whose verify callback
returns `undefined`. -/
def sampleStrategyConfig : OIDCAuthenticationStrategyConfig Unit :=
  { client := sampleClient, serverUrl := "https://idp.example/",
    verify := fun _ _ => none }

/-- A freshly constructed strategy: `configuration` is the empty object. -/
def sampleStrategy : OIDCAuthenticationStrategy Unit :=
  OIDCAuthenticationStrategy.mk' sampleStrategyConfig

/-- The discovery document of the end-to-end scenario. -/
def discoveredConfiguration : OpenIDConfiguration :=
  { authorization_endpoint := some "https://idp.example/auth",
    token_endpoint := some "https://idp.example/token",
    userinfo_endpoint := some "https://idp.example/userinfo" }

/-- The sample strategy as it would look after a successful discovery. -/
def discoveredStrategy : OIDCAuthenticationStrategy Unit :=
  { sampleStrategy with configuration := discoveredConfiguration }

/-- The token record of the end-to-end scenario. -/
def sampleToken : Token :=
  { access_token := "AT1", token_type := "Bearer", expires_in := 3600, scope := "openid" }

/-- The userinfo claims of the end-to-end scenario. -/
def sampleUserInfo : OIDCUserInfo := { sub := "u1", email := some "a@b.com" }

/-- A world in which every endpoint answers successfully. -/
def sampleWorld : World :=
  { discoveryResp := .ok discoveredConfiguration,
    tokenResp := .ok sampleToken,
    userinfoResp := .ok sampleUserInfo }

/-- A world in which the token and userinfo endpoints fail (transport error
or non-decodable body), with distinct underlying causes. -/
def failWorld : World :=
  { discoveryResp := .ok discoveredConfiguration,
    tokenResp := .fail "ECONNRESET while POSTing",
    userinfoResp := .fail "invalid JSON body" }

/-! ## Helper lemmas on the event traces -/

/-- With a truthy token endpoint, `token` issues exactly one POST to that
endpoint with the form body, whether the response decodes or fails. -/
theorem token_trace {V : Type} (strat : OIDCAuthenticationStrategy V) (w : World)
    (g : GrantType) (c : String)
    (hte : optTruthy strat.configuration.token_endpoint = true) :
    (strat.token w g c).2 =
      [Event.tokenCall (strat.configuration.token_endpoint.getD "")
        (tokenBody strat.config.client g c)] := by
  unfold OIDCAuthenticationStrategy.token
  rw [if_neg (by simp [hte])]
  cases h : w.tokenResp <;> simp [h]

/-- With a truthy token endpoint and a decodable response, `token` returns
the decoded record and its single POST event. -/
theorem token_ok {V : Type} (strat : OIDCAuthenticationStrategy V) (w : World)
    (g : GrantType) (c : String) (tok : Token)
    (hte : optTruthy strat.configuration.token_endpoint = true)
    (htr : w.tokenResp = .ok tok) :
    strat.token w g c =
      (.ok tok,
       [Event.tokenCall (strat.configuration.token_endpoint.getD "")
         (tokenBody strat.config.client g c)]) := by
  unfold OIDCAuthenticationStrategy.token
  rw [if_neg (by simp [hte]), htr]

/-- With a truthy userinfo endpoint and a decodable response, `userinfo`
returns the decoded claims and its single GET event. -/
theorem userinfo_ok {V : Type} (strat : OIDCAuthenticationStrategy V) (w : World)
    (tok : Token) (ui : OIDCUserInfo)
    (hue : optTruthy strat.configuration.userinfo_endpoint = true)
    (hur : w.userinfoResp = .ok ui) :
    strat.userinfo w tok =
      (.ok ui,
       [Event.userinfoCall (strat.configuration.userinfo_endpoint.getD "")
         (tok.token_type ++ " " ++ tok.access_token)]) := by
  unfold OIDCAuthenticationStrategy.userinfo
  rw [if_neg (by simp [hue]), hur]

/-- No branch of `token` ever records a discovery fetch. -/
theorem token_no_discovery {V : Type} (strat : OIDCAuthenticationStrategy V)
    (w : World) (g : GrantType) (c : String) :
    ((strat.token w g c).2.all fun e => !e.isDiscovery) = true := by
  unfold OIDCAuthenticationStrategy.token
  split
  · rfl
  · cases h : w.tokenResp <;> simp [h, Event.isDiscovery]

/-- No branch of `userinfo` ever records a discovery fetch. -/
theorem userinfo_no_discovery {V : Type} (strat : OIDCAuthenticationStrategy V)
    (w : World) (tok : Token) :
    ((strat.userinfo w tok).2.all fun e => !e.isDiscovery) = true := by
  unfold OIDCAuthenticationStrategy.userinfo
  split
  · rfl
  · cases h : w.userinfoResp <;> simp [h, Event.isDiscovery]

/-- The `action` getter never records an event, on either branch. -/
theorem action_trace_nil {V : Type} (strat : OIDCAuthenticationStrategy V) :
    (strat.action).2 = [] := by
  cases h : optTruthy (redirectUrlOf strat.configuration strat.config.client) <;>
    simp [OIDCAuthenticationStrategy.action, h]

/-- When the payload is truthy and carries a `code` or `refresh_token` key,
`authenticate`'s event trace begins with the trace of the `token` call made
with the selected grant type and value. -/
theorem authenticate_trace_split {V : Type} (strat : OIDCAuthenticationStrategy V)
    (w : World) (context : KredsContext) (now : Int)
    (hp : truthy context.payload = true)
    (hk : (!hasKey context.payload "code" && !hasKey context.payload "refresh_token") = false) :
    ∃ rest,
      (strat.authenticate w context now).2 =
        (strat.token w
          (if hasKey context.payload "code" then GrantType.authorization_code
           else GrantType.refresh_token)
          (if hasKey context.payload "code" then getKey context.payload "code"
           else getKey context.payload "refresh_token")).2 ++ rest := by
  unfold OIDCAuthenticationStrategy.authenticate
  rw [if_neg (by simp [hp]), if_neg (by simp [hp]), if_neg (by simp [hk])]
  rcases htok : strat.token w
      (if hasKey context.payload "code" then GrantType.authorization_code
       else GrantType.refresh_token)
      (if hasKey context.payload "code" then getKey context.payload "code"
       else getKey context.payload "refresh_token") with ⟨tres, ev1⟩
  cases tres with
  | error e => exact ⟨[], by simp [htok]⟩
  | ok tok =>
    rcases hui : strat.userinfo w tok with ⟨ures, ev2⟩
    cases ures with
    | error e => exact ⟨ev2, by simp [htok, hui]⟩
    | ok ui =>
      exact ⟨ev2 ++ [Event.verifyCall
        { token := tok, userInfo := ui, expiresAt := now + tok.expires_in }],
        by simp [htok, hui]⟩

/-! ## Claims -/

/-- C1: claimed that an `authenticate` call reaching the token-exchange path
on an instance with empty cached metadata first invokes the discovery client
and stores the fetched `ProviderMetadata` before attempting the exchange.
Evaluation at the failing input — a fresh strategy and the payload
`{code: "abc"}` — shows the code instead throws the configuration-missing
error with an empty event trace: no discovery fetch (and no other call)
ever happens, because `init` is invoked from nowhere. -/
theorem c1_no_discovery_before_token_exchange :
    sampleStrategy.authenticate sampleWorld { payload := JsValue.obj [("code", "abc")] } 0
      = (.error configMissingMsg, [])
    ∧ sampleStrategy.configuration = emptyConfiguration := ⟨rfl, rfl⟩

/-- C2 counterexample: a context whose payload is present but empty/falsy
(the empty string, `null`, `false`, `0`) makes `authenticate` return
`undefined` with no events — not the redirect outcome the claim asserts.
The guard `if (!context.payload) return undefined` already catches every
falsy payload, so the later redirect branch cannot be reached. -/
theorem c2_counterexample :
    sampleStrategy.authenticate sampleWorld { payload := JsValue.string "" } 0 = (.ok none, [])
    ∧ sampleStrategy.authenticate sampleWorld { payload := JsValue.nullv } 0 = (.ok none, [])
    ∧ sampleStrategy.authenticate sampleWorld { payload := JsValue.boolean false } 0 = (.ok none, [])
    ∧ sampleStrategy.authenticate sampleWorld { payload := JsValue.number 0 } 0 = (.ok none, []) :=
  ⟨rfl, rfl, rfl, rfl⟩

/-- C2 (amended): for every context whose payload is falsy — present but
empty, or entirely absent — `authenticate` returns `undefined` and emits no
event; the present-but-empty case is indistinguishable from the absent case
and the redirect branch of `authenticate` is unreachable. -/
theorem c2_falsy_payload_returns_undefined {V : Type}
    (strat : OIDCAuthenticationStrategy V) (w : World) (context : KredsContext)
    (now : Int) (h : truthy context.payload = false) :
    strat.authenticate w context now = (.ok none, []) := by
  simp [OIDCAuthenticationStrategy.authenticate, h]

/-- C2 witness: the amended statement at the concrete present-but-falsy
payload `null`. -/
theorem c2_witness :
    sampleStrategy.authenticate sampleWorld { payload := JsValue.nullv } 1 = (.ok none, []) :=
  c2_falsy_payload_returns_undefined sampleStrategy sampleWorld { payload := JsValue.nullv } 1 rfl

/-- C3: when `context.payload` is absent, `authenticate` returns `undefined`
and the event trace is empty: no network call of any kind, no token
exchange, no userinfo fetch, and no invocation of the verify callback. -/
theorem c3_absent_payload_returns_undefined {V : Type}
    (strat : OIDCAuthenticationStrategy V) (w : World) (context : KredsContext)
    (now : Int) (h : context.payload = JsValue.undef) :
    strat.authenticate w context now = (.ok none, []) := by
  simp [OIDCAuthenticationStrategy.authenticate, h, truthy]

/-- C3 witness: the absent-payload case on the concrete sample strategy. -/
theorem c3_witness :
    sampleStrategy.authenticate sampleWorld { payload := JsValue.undef } 0 = (.ok none, []) :=
  c3_absent_payload_returns_undefined sampleStrategy sampleWorld { payload := JsValue.undef } 0 rfl

/-- C4: a present (truthy) payload carrying neither a `code` nor a
`refresh_token` key makes `authenticate` fail with the unsupported-payload
error and an empty event trace — no network call is made. -/
theorem c4_unsupported_payload {V : Type}
    (strat : OIDCAuthenticationStrategy V) (w : World) (context : KredsContext)
    (now : Int) (hp : truthy context.payload = true)
    (hc : hasKey context.payload "code" = false)
    (hr : hasKey context.payload "refresh_token" = false) :
    strat.authenticate w context now = (.error unsupportedMsg, []) := by
  simp [OIDCAuthenticationStrategy.authenticate, hp, hc, hr]

/-- C4 witness: the access-token payload `{access_token: "t"}` of the
specification's test scenario. -/
theorem c4_witness :
    sampleStrategy.authenticate sampleWorld
      { payload := JsValue.obj [("access_token", "t")] } 0 = (.error unsupportedMsg, []) :=
  c4_unsupported_payload sampleStrategy sampleWorld
    { payload := JsValue.obj [("access_token", "t")] } 0 rfl rfl rfl

/-- C9: when `authorization_endpoint` is absent from the cached metadata,
reading `action` fails with the configuration-missing error, and its event
trace is empty — in particular no HTTP call is attempted to the token or
userinfo endpoints. -/
theorem c9_action_missing_endpoint {V : Type} (strat : OIDCAuthenticationStrategy V)
    (h : strat.configuration.authorization_endpoint = none) :
    strat.action = (.error configMissingMsg, []) := by
  simp [OIDCAuthenticationStrategy.action, redirectUrlOf, h, optTruthy]

/-- C9 witness: the fresh sample strategy, whose metadata is empty. -/
theorem c9_witness :
    sampleStrategy.action = (.error configMissingMsg, []) :=
  c9_action_missing_endpoint sampleStrategy rfl

/-- C6: with an unknown (falsy) `token_endpoint`, `token` fails with the
configuration-missing error and an empty trace — before any network
request; with a known endpoint, every transport error or non-decodable
body, whatever its cause, collapses into the single opaque token-endpoint
error (the cause is traced but never part of the result); and the two
error messages are distinct. -/
theorem c6_token_endpoint_errors {V : Type}
    (strat : OIDCAuthenticationStrategy V) (w : World) (g : GrantType) (c : String) :
    (optTruthy strat.configuration.token_endpoint = false →
      strat.token w g c = (.error configMissingMsg, []))
    ∧ (optTruthy strat.configuration.token_endpoint = true →
        ∀ cause, w.tokenResp = .fail cause →
          (strat.token w g c).1 = .error tokenFailedMsg)
    ∧ configMissingMsg ≠ tokenFailedMsg := by
  refine ⟨fun h => ?_, fun h cause hf => ?_, by decide⟩
  · simp [OIDCAuthenticationStrategy.token, h]
  · simp [OIDCAuthenticationStrategy.token, h, hf]

/-- C6 witness: the configuration-missing case on the fresh strategy, and
the collapsed opaque error on the discovered strategy in a world whose
token endpoint fails with a concrete transport cause. -/
theorem c6_witness :
    sampleStrategy.token sampleWorld GrantType.authorization_code "abc"
        = (.error configMissingMsg, [])
    ∧ (discoveredStrategy.token failWorld GrantType.authorization_code "abc").1
        = .error tokenFailedMsg :=
  ⟨(c6_token_endpoint_errors sampleStrategy sampleWorld
      GrantType.authorization_code "abc").1 rfl,
   (c6_token_endpoint_errors discoveredStrategy failWorld
      GrantType.authorization_code "abc").2.1 rfl "ECONNRESET while POSTing" rfl⟩

/-- C8: the authorization-redirect URL is the pure function
`redirectUrlOf` of the cached metadata and the client configuration alone —
so for fixed inputs its output is byte-identical across calls.  When the
authorization endpoint is absent it yields `none` (unavailable); when
present it is exactly the endpoint with the four query parameters
`response_type=code`, `client_id`, `scope` (space-joined), `redirect_uri`
appended in that insertion order. -/
theorem c8_redirect_url (configuration : OpenIDConfiguration) (client : ClientConfig) :
    (configuration.authorization_endpoint = none →
      redirectUrlOf configuration client = none)
    ∧ (∀ a, configuration.authorization_endpoint = some a → a ≠ "" →
      redirectUrlOf configuration client =
        some (a ++ (if containsChar a '?' then "&" else "?")
          ++ encodeQuery
            [("response_type", "code"),
             ("client_id", client.id),
             ("scope", String.intercalate " " client.scopes),
             ("redirect_uri", client.redirectUrl)])) := by
  constructor
  · intro h
    simp [redirectUrlOf, h, optTruthy]
  · intro a ha hne
    simp [redirectUrlOf, ha, optTruthy, hne, redirectParams, scopeOf]

/-- C8 witness: the discovered configuration and the sample client produce
exactly the endpoint plus the four encoded parameters. -/
theorem c8_witness :
    redirectUrlOf discoveredConfiguration sampleClient =
      some ("https://idp.example/auth" ++ "?" ++ encodeQuery (redirectParams sampleClient)) := by
  have h := (c8_redirect_url discoveredConfiguration sampleClient).2
    "https://idp.example/auth" rfl (by decide)
  rw [h]
  rfl

/-- C5: grant-type selection and the exact form body.  With a truthy payload
and a known token endpoint: a payload carrying a `code` key makes the first
event of `authenticate` a token POST with grant type `authorization_code`
and the payload's code value; a payload carrying a `refresh_token` key but
no `code` key, one with grant type `refresh_token` and the refresh-token
value.  In both cases the form body is exactly `client_id`, `client_secret`,
`grant_type`, `code`/`refresh_token` (selected by the grant type),
`redirect_uri`, `scope`, in that order. -/
theorem c5_grant_type_selection {V : Type}
    (strat : OIDCAuthenticationStrategy V) (w : World) (context : KredsContext)
    (now : Int) (hp : truthy context.payload = true)
    (hte : optTruthy strat.configuration.token_endpoint = true) :
    (hasKey context.payload "code" = true →
      (strat.authenticate w context now).2.head? =
        some (Event.tokenCall (strat.configuration.token_endpoint.getD "")
          [("client_id", strat.config.client.id),
           ("client_secret", strat.config.client.secret),
           ("grant_type", "authorization_code"),
           ("code", getKey context.payload "code"),
           ("redirect_uri", strat.config.client.redirectUrl),
           ("scope", scopeOf strat.config.client)]))
    ∧ (hasKey context.payload "code" = false →
       hasKey context.payload "refresh_token" = true →
      (strat.authenticate w context now).2.head? =
        some (Event.tokenCall (strat.configuration.token_endpoint.getD "")
          [("client_id", strat.config.client.id),
           ("client_secret", strat.config.client.secret),
           ("grant_type", "refresh_token"),
           ("refresh_token", getKey context.payload "refresh_token"),
           ("redirect_uri", strat.config.client.redirectUrl),
           ("scope", scopeOf strat.config.client)])) := by
  constructor
  · intro hc
    obtain ⟨rest, hsplit⟩ :=
      authenticate_trace_split strat w context now hp (by simp [hc])
    rw [hsplit, token_trace strat w _ _ hte]
    simp [hc, tokenBody, GrantType.str, GrantType.codeKey]
  · intro hc hr
    obtain ⟨rest, hsplit⟩ :=
      authenticate_trace_split strat w context now hp (by simp [hr])
    rw [hsplit, token_trace strat w _ _ hte]
    simp [hc, tokenBody, GrantType.str, GrantType.codeKey]

/-- C5 witness: both grant types on the discovered strategy — the code
payload `{code: "abc"}` and the refresh payload `{refreshToken: "xyz"}`. -/
theorem c5_witness :
    (discoveredStrategy.authenticate sampleWorld
        { payload := JsValue.obj [("code", "abc")] } 0).2.head? =
      some (Event.tokenCall "https://idp.example/token"
        [("client_id", "client-1"), ("client_secret", "secret-1"),
         ("grant_type", "authorization_code"), ("code", "abc"),
         ("redirect_uri", "https://app.example/cb"), ("scope", "openid email")])
    ∧ (discoveredStrategy.authenticate sampleWorld
        { payload := JsValue.obj [("refresh_token", "xyz")] } 0).2.head? =
      some (Event.tokenCall "https://idp.example/token"
        [("client_id", "client-1"), ("client_secret", "secret-1"),
         ("grant_type", "refresh_token"), ("refresh_token", "xyz"),
         ("redirect_uri", "https://app.example/cb"), ("scope", "openid email")]) := by
  constructor
  · have h := (c5_grant_type_selection discoveredStrategy sampleWorld
      { payload := JsValue.obj [("code", "abc")] } 0 rfl rfl).1 rfl
    rw [h]
    rfl
  · have h := (c5_grant_type_selection discoveredStrategy sampleWorld
      { payload := JsValue.obj [("refresh_token", "xyz")] } 0 rfl rfl).2 rfl rfl
    rw [h]
    rfl

/-- C7: on the successful code-exchange path (truthy payload with a `code`
key, both endpoints known, both responses decodable), `authenticate` invokes
the host verify callback exactly once, with the token record, the userinfo
claims, and `expiresAt = now + expires_in`; and the value `authenticate`
returns is exactly the value `verify` returned. -/
theorem c7_verify_exactly_once {V : Type}
    (strat : OIDCAuthenticationStrategy V) (w : World) (context : KredsContext)
    (now : Int) (tok : Token) (ui : OIDCUserInfo)
    (hp : truthy context.payload = true)
    (hc : hasKey context.payload "code" = true)
    (hte : optTruthy strat.configuration.token_endpoint = true)
    (hue : optTruthy strat.configuration.userinfo_endpoint = true)
    (htr : w.tokenResp = .ok tok) (hur : w.userinfoResp = .ok ui) :
    (strat.authenticate w context now).1 =
      .ok (strat.config.verify context
        { token := tok, userInfo := ui, expiresAt := now + tok.expires_in })
    ∧ (strat.authenticate w context now).2.filter Event.isVerify =
      [Event.verifyCall { token := tok, userInfo := ui, expiresAt := now + tok.expires_in }] := by
  have hauth : strat.authenticate w context now =
      (.ok (strat.config.verify context
        { token := tok, userInfo := ui, expiresAt := now + tok.expires_in }),
       [Event.tokenCall (strat.configuration.token_endpoint.getD "")
          (tokenBody strat.config.client GrantType.authorization_code
            (getKey context.payload "code")),
        Event.userinfoCall (strat.configuration.userinfo_endpoint.getD "")
          (tok.token_type ++ " " ++ tok.access_token),
        Event.verifyCall { token := tok, userInfo := ui, expiresAt := now + tok.expires_in }]) := by
    unfold OIDCAuthenticationStrategy.authenticate
    rw [if_neg (by simp [hp]), if_neg (by simp [hp]), if_neg (by simp [hc]),
        if_pos hc, if_pos hc]
    dsimp only
    rw [token_ok strat w GrantType.authorization_code (getKey context.payload "code")
        tok hte htr]
    dsimp only
    rw [userinfo_ok strat w tok ui hue hur]
    rfl
  rw [hauth]
  simp [Event.isVerify]

/-- C7 witness: the end-to-end scenario — discovered endpoints, payload
`{code: "AUTHCODE"}`, token `AT1` with `expires_in = 3600`, userinfo `u1`,
at `now = 1000`; the sample verify callback returns `undefined`, so
`authenticate` returns exactly that. -/
theorem c7_witness :
    (discoveredStrategy.authenticate sampleWorld
        { payload := JsValue.obj [("code", "AUTHCODE")] } 1000).1 = .ok none
    ∧ (discoveredStrategy.authenticate sampleWorld
        { payload := JsValue.obj [("code", "AUTHCODE")] } 1000).2.filter Event.isVerify =
      [Event.verifyCall
        { token := sampleToken, userInfo := sampleUserInfo, expiresAt := 1000 + 3600 }] := by
  have h := c7_verify_exactly_once discoveredStrategy sampleWorld
    { payload := JsValue.obj [("code", "AUTHCODE")] } 1000 sampleToken sampleUserInfo
    rfl rfl rfl rfl rfl rfl
  exact ⟨h.1, h.2⟩

/-- C10: a freshly constructed strategy starts with the empty configuration
object; neither `action` nor `authenticate` ever records a discovery fetch
(the `init` method is defined but invoked from nowhere, so nothing populates
the cache); hence on a fresh instance every `authenticate` call whose
payload carries a `code` or `refresh_token` fails with the
configuration-missing error and an empty event trace — before any network
call. -/
theorem c10_discovery_never_invoked {V : Type}
    (config : OIDCAuthenticationStrategyConfig V)
    (strat : OIDCAuthenticationStrategy V) (w : World) (context : KredsContext)
    (now : Int) :
    (OIDCAuthenticationStrategy.mk' config).configuration = emptyConfiguration
    ∧ (strat.action).2 = []
    ∧ ((strat.authenticate w context now).2.all fun e => !e.isDiscovery) = true
    ∧ (truthy context.payload = true →
        (hasKey context.payload "code" = true ∨ hasKey context.payload "refresh_token" = true) →
        (OIDCAuthenticationStrategy.mk' config).authenticate w context now =
          (.error configMissingMsg, [])) := by
  refine ⟨rfl, ?_, ?_, ?_⟩
  · cases h : optTruthy (redirectUrlOf strat.configuration strat.config.client) <;>
      simp [OIDCAuthenticationStrategy.action, h]
  · by_cases hp : truthy context.payload = false
    · simp [OIDCAuthenticationStrategy.authenticate, hp]
    · have hp' : truthy context.payload = true := by
        cases h : truthy context.payload
        · exact absurd h hp
        · rfl
      by_cases hk : (!hasKey context.payload "code"
          && !hasKey context.payload "refresh_token") = true
      · simp [OIDCAuthenticationStrategy.authenticate, hp', hk]
      · have hk' : (!hasKey context.payload "code"
            && !hasKey context.payload "refresh_token") = false := by
          cases h : (!hasKey context.payload "code"
              && !hasKey context.payload "refresh_token")
          · rfl
          · exact absurd h hk
        unfold OIDCAuthenticationStrategy.authenticate
        rw [if_neg (by simp [hp']), if_neg (by simp [hp']), if_neg (by simp [hk'])]
        dsimp only
        have htok := token_no_discovery strat w
          (if hasKey context.payload "code" then GrantType.authorization_code
           else GrantType.refresh_token)
          (if hasKey context.payload "code" then getKey context.payload "code"
           else getKey context.payload "refresh_token")
        rcases h1 : strat.token w
            (if hasKey context.payload "code" then GrantType.authorization_code
             else GrantType.refresh_token)
            (if hasKey context.payload "code" then getKey context.payload "code"
             else getKey context.payload "refresh_token") with ⟨tres, ev1⟩
        rw [h1] at htok
        cases tres with
        | error e => simpa using htok
        | ok tok =>
          dsimp only
          have hu := userinfo_no_discovery strat w tok
          rcases h2 : strat.userinfo w tok with ⟨ures, ev2⟩
          rw [h2] at hu
          cases ures with
          | error e => simp_all [List.all_append]
          | ok ui => simp_all [List.all_append, Event.isDiscovery]
  · intro hp hkey
    have hk : (!hasKey context.payload "code"
        && !hasKey context.payload "refresh_token") = false := by
      rcases hkey with h | h <;> simp [h]
    unfold OIDCAuthenticationStrategy.authenticate
    rw [if_neg (by simp [hp]), if_neg (by simp [hp]), if_neg (by simp [hk])]
    have htok : ∀ (g : GrantType) (c : String),
        (OIDCAuthenticationStrategy.mk' config).token w g c =
          (.error configMissingMsg, []) := by
      intro g c
      simp [OIDCAuthenticationStrategy.token, OIDCAuthenticationStrategy.mk',
            emptyConfiguration, optTruthy]
    dsimp only
    rw [htok]

/-- C10 witness: on the fresh sample strategy, both the code payload and the
refresh-token payload fail with the configuration-missing error and zero
events, and `action` records no event. -/
theorem c10_witness :
    sampleStrategy.authenticate sampleWorld
        { payload := JsValue.obj [("code", "abc")] } 5 = (.error configMissingMsg, [])
    ∧ sampleStrategy.authenticate sampleWorld
        { payload := JsValue.obj [("refresh_token", "xyz")] } 5 = (.error configMissingMsg, [])
    ∧ (sampleStrategy.action).2 = [] := by
  refine ⟨?_, ?_, ?_⟩
  · exact (c10_discovery_never_invoked sampleStrategyConfig sampleStrategy sampleWorld
      { payload := JsValue.obj [("code", "abc")] } 5).2.2.2 rfl (Or.inl rfl)
  · exact (c10_discovery_never_invoked sampleStrategyConfig sampleStrategy sampleWorld
      { payload := JsValue.obj [("refresh_token", "xyz")] } 5).2.2.2 rfl (Or.inr rfl)
  · exact (c10_discovery_never_invoked sampleStrategyConfig sampleStrategy sampleWorld
      { payload := JsValue.undef } 5).2.1

end KredsOIDC
